import Mathlib

/-
Shallow embedding of `scripts/receiver.py`, a Flask webhook receiver that
relays Docker registry push events to a Gotify notification endpoint.

Modelling conventions:
* JSON values decoded from a request body are modelled by the inductive
  type `Json` (objects are association lists; JSON numbers are modelled
  as integers, which suffices for every claim below).
* Python `d.get(k, default)` is modelled by `pyGet`: on a dict it returns
  the value bound to the key (or the default when the key is absent);
  on any non-dict value it raises `AttributeError`, modelled by
  `Except.error`.  The handler's top-level `try/except` is the final
  `match` in `docker_webhook`.
* `request.json` is modelled by an `Except String Json` argument: `ok`
  carries the decoded body, `error` stands for a JSON parse failure
  (which Flask raises inside the handler body, hence inside the `try`).
* The single `requests.post` call is modelled by recording the call in
  the result (`calls` field) and taking the downstream status code as an
  argument `dStatus`; the reference code performs no retry, so one
  status value per request suffices.
* Python `f`-string interpolation of a decoded value is `pyStrOf`
  (Python `str()`); for dicts and lists this is the `repr`-style
  rendering, simplified for strings containing quotes, which no claim
  exercises.
-/

set_option autoImplicit false

/-- A decoded JSON value, as produced by Python's `json` module:
objects are dicts (association lists with distinct keys), numbers are
modelled as integers. -/
inductive Json where
  | null
  | bool (b : Bool)
  | num (n : Int)
  | str (s : String)
  | arr (xs : List Json)
  | obj (fields : List (String × Json))

/-- Is this value a Python dict? -/
def Json.isObj : Json → Bool
  | Json.obj _ => true
  | _ => false

/-- Python `d.get(k, dflt)`: succeeds on a dict, raising `AttributeError`
on any other receiver (that exception is caught by the handler's
`except`). -/
def pyGet (j : Json) (k : String) (dflt : Json) : Except String Json :=
  match j with
  | Json.obj fs => Except.ok ((fs.lookup k).getD dflt)
  | _ => Except.error "AttributeError: .get on a non-dict value"

/-- The extraction pattern `data.get(outer, {}).get(inner, 'Unknown')`
used for all four fields of the webhook payload. -/
def getField (data : Json) (outer inner : String) : Except String Json :=
  match pyGet data outer (Json.obj []) with
  | Except.error e => Except.error e
  | Except.ok o => pyGet o inner (Json.str "Unknown")

/-- Python `==` between a decoded JSON value and a `str`: only a string
with the same characters compares equal. -/
def jsonEqPyStr (j : Json) (s : String) : Bool :=
  match j with
  | Json.str t => t == s
  | _ => false

/-- Python `x in xs` for a decoded value `x` and a list of strings `xs`
(list membership via `==`, no hashing, so it never raises). -/
def pyInStrList (j : Json) (xs : List String) : Bool :=
  xs.any (fun s => jsonEqPyStr j s)

/-- A single-quote character, used by the `repr`-style rendering. -/
def singleQuote : String := String.singleton (Char.ofNat 39)

mutual
/-- Python `repr` of a decoded JSON value (the rendering used for values
nested inside a dict or list when interpolated into an `f`-string).
Simplified: strings are always wrapped in single quotes without
escaping. -/
def pyRepr : Json → String
  | Json.null => "None"
  | Json.bool true => "True"
  | Json.bool false => "False"
  | Json.num n => toString n
  | Json.str s => singleQuote ++ s ++ singleQuote
  | Json.arr xs => "[" ++ String.intercalate ", " (pyReprList xs) ++ "]"
  | Json.obj fs => "\x7b" ++ String.intercalate ", " (pyReprFields fs) ++ "\x7d"

/-- `repr` of the elements of a list. -/
def pyReprList : List Json → List String
  | [] => []
  | j :: js => pyRepr j :: pyReprList js

/-- `repr` of the entries of a dict. -/
def pyReprFields : List (String × Json) → List String
  | [] => []
  | (k, v) :: fs => (singleQuote ++ k ++ singleQuote ++ ": " ++ pyRepr v) :: pyReprFields fs
end

/-- Python `str()` of a decoded JSON value, as used by `f`-string
interpolation. -/
def pyStrOf : Json → String
  | Json.null => "None"
  | Json.bool true => "True"
  | Json.bool false => "False"
  | Json.num n => toString n
  | Json.str s => s
  | Json.arr xs => pyRepr (Json.arr xs)
  | Json.obj fs => pyRepr (Json.obj fs)

/-- The immutable process configuration loaded at module import time. -/
structure Config where
  gotify_url : String
  gotify_token : String
  watched_images : List String

/-- One outbound `requests.post` to the Gotify server:
`POST {url}?token={token}` with JSON body `{title, message, priority}`. -/
structure OutboundCall where
  url : String
  token : String
  title : String
  message : String
  priority : Int

/-- The observable outcome of one webhook request: the HTTP status and
body returned to the caller, plus the list of outbound notification
calls attempted while handling it. -/
structure HandlerResult where
  status : Nat
  body : String
  calls : List OutboundCall

/-- The body of `docker_webhook` inside the `try`: every Python `raise`
point is an `Except.error`; on success it yields the response status,
response body and the outbound calls attempted. -/
def docker_webhook_core (cfg : Config) (data : Json) (dStatus : Nat) :
    Except String (Nat × String × List OutboundCall) :=
  match pyGet data "action" Json.null with
  | Except.error e => Except.error e
  | Except.ok action =>
  if !(jsonEqPyStr action "push") then
    Except.ok (200, "Not a push event", [])
  else
  match getField data "repository" "name" with
  | Except.error e => Except.error e
  | Except.ok repo_name =>
  match getField data "repository" "repo_name" with
  | Except.error e => Except.error e
  | Except.ok repo_full_name =>
  match getField data "target" "tag" with
  | Except.error e => Except.error e
  | Except.ok tag =>
  match getField data "target" "date" with
  | Except.error e => Except.error e
  | Except.ok pushed_at =>
  if !(pyInStrList repo_name cfg.watched_images)
      && !(pyInStrList repo_full_name cfg.watched_images) then
    Except.ok (200, "Image " ++ pyStrOf repo_full_name ++ " not in watch list", [])
  else
    let title := "🐳 New Docker Tag Released"
    let message := "**Image:** " ++ pyStrOf repo_full_name
        ++ "\n**Tag:** " ++ pyStrOf tag
        ++ "\n**Pushed:** " ++ pyStrOf pushed_at
    let gotify_payload : OutboundCall :=
      ⟨cfg.gotify_url ++ "/message", cfg.gotify_token, title, message, 5⟩
    if dStatus == 200 then
      Except.ok (200, "Notification sent", [gotify_payload])
    else
      Except.ok (500, "Failed to send notification", [gotify_payload])

/-- The `/docker-webhook` handler: parse outcome and handler body run
inside `try`; any exception is caught and mapped to a 500 response. -/
def docker_webhook (cfg : Config) (parsed : Except String Json) (dStatus : Nat) :
    HandlerResult :=
  match Except.bind parsed (fun data => docker_webhook_core cfg data dStatus) with
  | Except.ok (s, b, cs) => ⟨s, b, cs⟩
  | Except.error _ => ⟨500, "Error processing webhook", []⟩

/-- The JSON body returned by `/health`. -/
structure HealthBody where
  status : String
  gotify_url : String
  watched_images : List String

/-- The `/health` handler: a pure function of the configuration. -/
def health_check (cfg : Config) : HealthBody × Nat :=
  (⟨"running", cfg.gotify_url, cfg.watched_images⟩, 200)

/-- The characters Python `str.strip()` removes (ASCII whitespace). -/
def isPySpace (c : Char) : Bool :=
  c == ' ' || c == '\t' || c == '\n' || c == '\r' || c == '\x0b' || c == '\x0c'

/-- Python `s.strip()`. -/
def pyStrip (s : String) : String :=
  String.mk (((s.data.dropWhile isPySpace).reverse.dropWhile isPySpace).reverse)

/-- Helper for `s.split(',')`: accumulates the current chunk in reverse. -/
def splitCommaAux : List Char → List Char → List String
  | [], acc => [String.mk acc.reverse]
  | c :: cs, acc =>
    if c = ',' then String.mk acc.reverse :: splitCommaAux cs []
    else splitCommaAux cs (c :: acc)

/-- Python `s.split(',')` (keeps empty chunks; `"".split(',') = [""]`). -/
def pySplitComma (s : String) : List String :=
  splitCommaAux s.data []

/-- The module-level list comprehension
`[img.strip() for img in WATCHED_IMAGES_STR.split(',') if img.strip()]`. -/
def parseWatchedImages (s : String) : List String :=
  ((pySplitComma s).map pyStrip).filter (fun t => !(t == ""))

/-- The module-level configuration code: reads the three environment
variables (`none` models an unset variable), applies the default URL,
parses the watch list, and raises `ValueError` when a required value is
missing; a raised error aborts the import so the server never starts. -/
def startup (env_url env_token env_watched : Option String) : Except String Config :=
  let gotify_url := env_url.getD "http://localhost:80"
  let gotify_token := env_token.getD ""
  let watched_images := parseWatchedImages (env_watched.getD "")
  if gotify_token == "" then
    Except.error "GOTIFY_TOKEN environment variable is required"
  else if watched_images.isEmpty then
    Except.error "WATCHED_IMAGES environment variable is required"
  else
    Except.ok ⟨gotify_url, gotify_token, watched_images⟩

/-- Does process start fail (an exception escape module import)? -/
def startupFails (env_url env_token env_watched : Option String) : Bool :=
  match startup env_url env_token env_watched with
  | Except.error _ => true
  | Except.ok _ => false

/-- The configuration of the spec's example scenario:
`WATCHED_IMAGES=myapp/web` with the default URL. -/
def cfgEx : Config := ⟨"http://localhost:80", "tok", ["myapp/web"]⟩

/-- The spec's example push event. -/
def dataEx : Json := Json.obj [
  ("action", Json.str "push"),
  ("repository", Json.obj [("name", Json.str "web"), ("repo_name", Json.str "myapp/web")]),
  ("target", Json.obj [("tag", Json.str "v2.1"), ("date", Json.str "2024-01-01T00:00:00Z")])]

/-- An event for an image absent from `cfgEx`'s watch list. -/
def dataUnwatched : Json := Json.obj [
  ("action", Json.str "push"),
  ("repository", Json.obj [("name", Json.str "app"), ("repo_name", Json.str "other/app")]),
  ("target", Json.obj [("tag", Json.str "v1"), ("date", Json.str "2024-02-02T00:00:00Z")])]

/-- `pyGet` on a dict looks the key up and falls back to the default. -/
theorem pyGet_obj (fs : List (String × Json)) (k : String) (dflt : Json) :
    pyGet (Json.obj fs) k dflt = Except.ok ((fs.lookup k).getD dflt) := rfl

/-- `getField` on a dict is the inner `pyGet` on the value found for the
outer key (or on the empty-dict default). -/
theorem getField_obj (flds : List (String × Json)) (outer inner : String) :
    getField (Json.obj flds) outer inner =
      pyGet ((flds.lookup outer).getD (Json.obj [])) inner (Json.str "Unknown") := rfl

/-- The outer field of an extraction is well-formed: absent, or a dict. -/
def outerFieldOk (flds : List (String × Json)) (k : String) : Prop :=
  flds.lookup k = none ∨ ∃ g, flds.lookup k = some (Json.obj g)

/-- The extraction path `data.get(outer, {}).get(inner, 'Unknown')` finds
no value: the outer key is absent, or bound to a dict without the inner
key. -/
def fieldAbsent (flds : List (String × Json)) (outer inner : String) : Prop :=
  flds.lookup outer = none ∨
    ∃ g, flds.lookup outer = some (Json.obj g) ∧ g.lookup inner = none

/-- A well-formed outer field makes the whole extraction succeed. -/
theorem getField_ok_of_outerFieldOk (flds : List (String × Json)) (k inner : String)
    (h : outerFieldOk flds k) :
    ∃ v, getField (Json.obj flds) k inner = Except.ok v := by
  rcases h with h | ⟨g, h⟩ <;> rw [getField_obj, h] <;> exact ⟨_, rfl⟩

/-- An outer field present with a non-dict value makes the extraction
raise `AttributeError`. -/
theorem getField_error_of_nonobj (flds : List (String × Json)) (k inner : String)
    (v : Json) (hv : flds.lookup k = some v) (hno : v.isObj = false) :
    getField (Json.obj flds) k inner =
      Except.error "AttributeError: .get on a non-dict value" := by
  rw [getField_obj, hv]
  cases v <;> simp_all [pyGet, Json.isObj]

/-- Whenever the handler body (parse included) raises, the `except`
clause produces the generic 500 response and no outbound call stands. -/
theorem docker_webhook_of_bind_error (cfg : Config) (parsed : Except String Json)
    (d : Nat) (e : String)
    (h : Except.bind parsed (fun data => docker_webhook_core cfg data d) =
      Except.error e) :
    docker_webhook cfg parsed d = ⟨500, "Error processing webhook", []⟩ := by
  unfold docker_webhook
  rw [h]

/-- C9: `GET /health` returns status 200 with body
`{status: "running", gotify_url: <configured URL>, watched_images:
<configured watch list>}` for every configuration; being a pure total
function of the immutable configuration, it has no failure path and no
side effect, regardless of prior request history. -/
theorem c9_health_always_ok (cfg : Config) :
    health_check cfg = (⟨"running", cfg.gotify_url, cfg.watched_images⟩, 200) := rfl

/-- C3: any event whose `action` field (absent modelled as `None`) is
not the string `"push"` gets response 200 with body
`"Not a push event"`, and no outbound call is made. -/
theorem c3_non_push_no_op (cfg : Config) (d : Nat) (flds : List (String × Json))
    (h : jsonEqPyStr ((flds.lookup "action").getD Json.null) "push" = false) :
    docker_webhook cfg (Except.ok (Json.obj flds)) d = ⟨200, "Not a push event", []⟩ := by
  unfold docker_webhook docker_webhook_core
  simp [Except.bind, pyGet_obj, h]

/-- Witness for C3: a concrete `pull` event. -/
theorem c3_witness :
    docker_webhook cfgEx (Except.ok (Json.obj [("action", Json.str "pull")])) 0 =
      ⟨200, "Not a push event", []⟩ :=
  c3_non_push_no_op cfgEx 0 [("action", Json.str "pull")] (by rfl)

/-- C5: whenever the request body fails to parse as JSON, or any error
is raised inside the handler body, the handler itself returns status 500
with body `"Error processing webhook"` instead of propagating the
exception; `docker_webhook` is a total function, so no request input
crashes the process. -/
theorem c5_error_isolation (cfg : Config) (parsed : Except String Json) (d : Nat)
    (e : String)
    (h : Except.bind parsed (fun data => docker_webhook_core cfg data d) =
      Except.error e) :
    docker_webhook cfg parsed d = ⟨500, "Error processing webhook", []⟩ :=
  docker_webhook_of_bind_error cfg parsed d e h

/-- Witness for C5: a concrete malformed body. -/
theorem c5_witness :
    docker_webhook cfgEx (Except.error "Expecting value: line 1 column 1 (char 0)") 0 =
      ⟨500, "Error processing webhook", []⟩ :=
  c5_error_isolation cfgEx (Except.error "Expecting value: line 1 column 1 (char 0)") 0
    "Expecting value: line 1 column 1 (char 0)" rfl

/-- Every successful run of the handler body attempts at most one
outbound call. -/
theorem docker_webhook_core_calls_le_one (cfg : Config) (data : Json) (d : Nat)
    (s : Nat) (b : String) (cs : List OutboundCall)
    (h : docker_webhook_core cfg data d = Except.ok (s, b, cs)) : cs.length ≤ 1 := by
  unfold docker_webhook_core at h
  repeat' split at h
  all_goals try simp_all
  all_goals (obtain ⟨-, -, rfl⟩ := h; simp)

/-- C7: on every input — malformed body, non-push event, unwatched
image, watched image, any downstream status — the handler attempts at
most one outbound notification call; there is no retry path. -/
theorem c7_at_most_one_outbound (cfg : Config) (parsed : Except String Json) (d : Nat) :
    (docker_webhook cfg parsed d).calls.length ≤ 1 := by
  cases parsed with
  | error e => simp [docker_webhook, Except.bind]
  | ok data =>
    cases hc : docker_webhook_core cfg data d with
    | error e => simp [docker_webhook, Except.bind, hc]
    | ok t =>
      obtain ⟨s, b, cs⟩ := t
      have hle := docker_webhook_core_calls_le_one cfg data d s b cs hc
      simpa [docker_webhook, Except.bind, hc] using hle

/-- The handler's outcome on a push event whose four fields extract
successfully: filtered out when neither name is watched, otherwise one
outbound call whose message interpolates full name, tag and timestamp,
with the response decided by the downstream status being 200 or not. -/
theorem docker_webhook_push_extracted (cfg : Config) (data : Json) (d : Nat)
    (rn rfn tg ts : Json)
    (hact : pyGet data "action" Json.null = Except.ok (Json.str "push"))
    (h1 : getField data "repository" "name" = Except.ok rn)
    (h2 : getField data "repository" "repo_name" = Except.ok rfn)
    (h3 : getField data "target" "tag" = Except.ok tg)
    (h4 : getField data "target" "date" = Except.ok ts) :
    docker_webhook cfg (Except.ok data) d =
      if !(pyInStrList rn cfg.watched_images)
          && !(pyInStrList rfn cfg.watched_images) then
        ⟨200, "Image " ++ pyStrOf rfn ++ " not in watch list", []⟩
      else if d == 200 then
        ⟨200, "Notification sent",
         [⟨cfg.gotify_url ++ "/message", cfg.gotify_token, "🐳 New Docker Tag Released",
           "**Image:** " ++ pyStrOf rfn ++ "\n**Tag:** " ++ pyStrOf tg
             ++ "\n**Pushed:** " ++ pyStrOf ts, 5⟩]⟩
      else
        ⟨500, "Failed to send notification",
         [⟨cfg.gotify_url ++ "/message", cfg.gotify_token, "🐳 New Docker Tag Released",
           "**Image:** " ++ pyStrOf rfn ++ "\n**Tag:** " ++ pyStrOf tg
             ++ "\n**Pushed:** " ++ pyStrOf ts, 5⟩]⟩ := by
  cases hC : (!(pyInStrList rn cfg.watched_images)
      && !(pyInStrList rfn cfg.watched_images)) <;>
  cases hd : (d == 200) <;>
  · unfold docker_webhook docker_webhook_core
    simp [Except.bind, hact, h1, h2, h3, h4, jsonEqPyStr, hC, hd]

/-- C1: a push event whose short or full repository name is watched, with
a succeeding downstream call (status 200), produces exactly one outbound
POST to `{GOTIFY_URL}/message` carrying the auth token, the fixed title,
priority 5 and the three-line message interpolating full name, tag and
timestamp; the handler answers 200 `"Notification sent"`. -/
theorem c1_watched_push_success_notifies (cfg : Config) (data : Json)
    (rn rfn tg ts : Json)
    (hact : pyGet data "action" Json.null = Except.ok (Json.str "push"))
    (h1 : getField data "repository" "name" = Except.ok rn)
    (h2 : getField data "repository" "repo_name" = Except.ok rfn)
    (h3 : getField data "target" "tag" = Except.ok tg)
    (h4 : getField data "target" "date" = Except.ok ts)
    (hw : (pyInStrList rn cfg.watched_images
        || pyInStrList rfn cfg.watched_images) = true) :
    docker_webhook cfg (Except.ok data) 200 =
      ⟨200, "Notification sent",
       [⟨cfg.gotify_url ++ "/message", cfg.gotify_token, "🐳 New Docker Tag Released",
         "**Image:** " ++ pyStrOf rfn ++ "\n**Tag:** " ++ pyStrOf tg
           ++ "\n**Pushed:** " ++ pyStrOf ts, 5⟩]⟩ := by
  have hC : (!(pyInStrList rn cfg.watched_images)
      && !(pyInStrList rfn cfg.watched_images)) = false := by
    rw [← Bool.not_or, hw]
    rfl
  rw [docker_webhook_push_extracted cfg data 200 rn rfn tg ts hact h1 h2 h3 h4]
  simp [hC]

/-- Witness for C1: the spec's example scenario. -/
theorem c1_witness :
    docker_webhook cfgEx (Except.ok dataEx) 200 =
      ⟨200, "Notification sent",
       [⟨"http://localhost:80/message", "tok", "🐳 New Docker Tag Released",
         "**Image:** myapp/web\n**Tag:** v2.1\n**Pushed:** 2024-01-01T00:00:00Z", 5⟩]⟩ :=
  c1_watched_push_success_notifies cfgEx dataEx
    (Json.str "web") (Json.str "myapp/web") (Json.str "v2.1")
    (Json.str "2024-01-01T00:00:00Z") rfl rfl rfl rfl rfl rfl

/-- C2 as stated is false: on the spec's example event, a downstream 201
— a success status — makes the handler answer 500
`"Failed to send notification"`, not 200, because the code compares the
downstream status to 200 exactly. -/
theorem c2_counterexample :
    docker_webhook cfgEx (Except.ok dataEx) 201 =
      ⟨500, "Failed to send notification",
       [⟨"http://localhost:80/message", "tok", "🐳 New Docker Tag Released",
         "**Image:** myapp/web\n**Tag:** v2.1\n**Pushed:** 2024-01-01T00:00:00Z", 5⟩]⟩ ∧
    (docker_webhook cfgEx (Except.ok dataEx) 201).status ≠ 200 :=
  ⟨rfl, by decide⟩

/-- C2 amended: for a watched push event, the handler answers 200
`"Notification sent"` exactly when the downstream status equals 200, and
500 `"Failed to send notification"` on every other downstream status,
success statuses such as 201 or 204 included. -/
theorem c2_amended_downstream_200_exactly (cfg : Config) (data : Json) (d : Nat)
    (rn rfn tg ts : Json)
    (hact : pyGet data "action" Json.null = Except.ok (Json.str "push"))
    (h1 : getField data "repository" "name" = Except.ok rn)
    (h2 : getField data "repository" "repo_name" = Except.ok rfn)
    (h3 : getField data "target" "tag" = Except.ok tg)
    (h4 : getField data "target" "date" = Except.ok ts)
    (hw : (pyInStrList rn cfg.watched_images
        || pyInStrList rfn cfg.watched_images) = true) :
    docker_webhook cfg (Except.ok data) d =
      if d == 200 then
        ⟨200, "Notification sent",
         [⟨cfg.gotify_url ++ "/message", cfg.gotify_token, "🐳 New Docker Tag Released",
           "**Image:** " ++ pyStrOf rfn ++ "\n**Tag:** " ++ pyStrOf tg
             ++ "\n**Pushed:** " ++ pyStrOf ts, 5⟩]⟩
      else
        ⟨500, "Failed to send notification",
         [⟨cfg.gotify_url ++ "/message", cfg.gotify_token, "🐳 New Docker Tag Released",
           "**Image:** " ++ pyStrOf rfn ++ "\n**Tag:** " ++ pyStrOf tg
             ++ "\n**Pushed:** " ++ pyStrOf ts, 5⟩]⟩ := by
  have hC : (!(pyInStrList rn cfg.watched_images)
      && !(pyInStrList rfn cfg.watched_images)) = false := by
    rw [← Bool.not_or, hw]
    rfl
  rw [docker_webhook_push_extracted cfg data d rn rfn tg ts hact h1 h2 h3 h4]
  simp [hC]

/-- Witness for the amended C2: downstream 404 on the example event. -/
theorem c2_amended_witness :
    docker_webhook cfgEx (Except.ok dataEx) 404 =
      ⟨500, "Failed to send notification",
       [⟨"http://localhost:80/message", "tok", "🐳 New Docker Tag Released",
         "**Image:** myapp/web\n**Tag:** v2.1\n**Pushed:** 2024-01-01T00:00:00Z", 5⟩]⟩ :=
  c2_amended_downstream_200_exactly cfgEx dataEx 404
    (Json.str "web") (Json.str "myapp/web") (Json.str "v2.1")
    (Json.str "2024-01-01T00:00:00Z") rfl rfl rfl rfl rfl rfl

/-- C4: a push event where neither the short nor the full repository
name is watched gets response 200, a body naming the rejected image's
full name, and no outbound call. -/
theorem c4_unwatched_filtered (cfg : Config) (data : Json) (d : Nat)
    (rn rfn tg ts : Json)
    (hact : pyGet data "action" Json.null = Except.ok (Json.str "push"))
    (h1 : getField data "repository" "name" = Except.ok rn)
    (h2 : getField data "repository" "repo_name" = Except.ok rfn)
    (h3 : getField data "target" "tag" = Except.ok tg)
    (h4 : getField data "target" "date" = Except.ok ts)
    (hrn : pyInStrList rn cfg.watched_images = false)
    (hrfn : pyInStrList rfn cfg.watched_images = false) :
    docker_webhook cfg (Except.ok data) d =
      ⟨200, "Image " ++ pyStrOf rfn ++ " not in watch list", []⟩ := by
  rw [docker_webhook_push_extracted cfg data d rn rfn tg ts hact h1 h2 h3 h4]
  simp [hrn, hrfn]

/-- Witness for C4: a push event for an unwatched image. -/
theorem c4_witness :
    docker_webhook cfgEx (Except.ok dataUnwatched) 0 =
      ⟨200, "Image other/app not in watch list", []⟩ :=
  c4_unwatched_filtered cfgEx dataUnwatched 0
    (Json.str "app") (Json.str "other/app") (Json.str "v1")
    (Json.str "2024-02-02T00:00:00Z") rfl rfl rfl rfl rfl rfl rfl

/-- A value is a dict exactly when it is built by `Json.obj`. -/
theorem Json.isObj_iff (j : Json) : j.isObj = true ↔ ∃ g, j = Json.obj g := by
  cases j <;> simp [Json.isObj]

/-- C6: on a push event, any of the four extraction paths whose field is
absent (outer key missing, or outer dict lacking the inner key) yields
the placeholder `"Unknown"`; and with well-formed (absent-or-dict)
`repository` and `target` fields the handler never hits the error path:
it proceeds to the filter and finishes in one of the three post-filter
outcomes. -/
theorem c6_missing_fields_default_unknown (cfg : Config) (d : Nat)
    (flds : List (String × Json)) (outer inner : String)
    (hact : flds.lookup "action" = some (Json.str "push"))
    (habs : fieldAbsent flds outer inner)
    (hrep : outerFieldOk flds "repository")
    (htgt : outerFieldOk flds "target") :
    getField (Json.obj flds) outer inner = Except.ok (Json.str "Unknown") ∧
    ∃ rfn c,
      docker_webhook cfg (Except.ok (Json.obj flds)) d =
          ⟨200, "Image " ++ pyStrOf rfn ++ " not in watch list", []⟩ ∨
      docker_webhook cfg (Except.ok (Json.obj flds)) d =
          ⟨200, "Notification sent", [c]⟩ ∨
      docker_webhook cfg (Except.ok (Json.obj flds)) d =
          ⟨500, "Failed to send notification", [c]⟩ := by
  constructor
  · rcases habs with h | ⟨g, hg, hin⟩
    · rw [getField_obj, h]
      rfl
    · rw [getField_obj, hg]
      simp [pyGet, hin]
  · obtain ⟨rn, e1⟩ := getField_ok_of_outerFieldOk flds "repository" "name" hrep
    obtain ⟨rfn, e2⟩ := getField_ok_of_outerFieldOk flds "repository" "repo_name" hrep
    obtain ⟨tg, e3⟩ := getField_ok_of_outerFieldOk flds "target" "tag" htgt
    obtain ⟨ts, e4⟩ := getField_ok_of_outerFieldOk flds "target" "date" htgt
    have ha : pyGet (Json.obj flds) "action" Json.null = Except.ok (Json.str "push") := by
      rw [pyGet_obj, hact]
      rfl
    rw [docker_webhook_push_extracted cfg (Json.obj flds) d rn rfn tg ts ha e1 e2 e3 e4]
    cases hC : (!(pyInStrList rn cfg.watched_images)
        && !(pyInStrList rfn cfg.watched_images)) with
    | true => exact ⟨rfn, ⟨"", "", "", "", 0⟩, Or.inl (by simp [hC])⟩
    | false =>
      cases hd : (d == 200) with
      | true =>
        exact ⟨rfn,
          ⟨cfg.gotify_url ++ "/message", cfg.gotify_token, "🐳 New Docker Tag Released",
           "**Image:** " ++ pyStrOf rfn ++ "\n**Tag:** " ++ pyStrOf tg
             ++ "\n**Pushed:** " ++ pyStrOf ts, 5⟩,
          Or.inr (Or.inl (by simp [hC, hd]))⟩
      | false =>
        exact ⟨rfn,
          ⟨cfg.gotify_url ++ "/message", cfg.gotify_token, "🐳 New Docker Tag Released",
           "**Image:** " ++ pyStrOf rfn ++ "\n**Tag:** " ++ pyStrOf tg
             ++ "\n**Pushed:** " ++ pyStrOf ts, 5⟩,
          Or.inr (Or.inr (by simp [hC, hd]))⟩

/-- Witness for C6: a push event with both `repository` and `target`
absent ends in the filter branch with full name `"Unknown"`. -/
theorem c6_witness :
    getField (Json.obj [("action", Json.str "push")]) "repository" "name" =
      Except.ok (Json.str "Unknown") ∧
    docker_webhook cfgEx (Except.ok (Json.obj [("action", Json.str "push")])) 0 =
      ⟨200, "Image Unknown not in watch list", []⟩ :=
  ⟨(c6_missing_fields_default_unknown cfgEx 0 [("action", Json.str "push")]
      "repository" "name" rfl (Or.inl rfl) (Or.inl rfl) (Or.inl rfl)).1,
   rfl⟩

/-- C10: on a push event whose `repository` or `target` key is present
but bound to `null` or any non-dict value, the nested `.get` raises
`AttributeError`, the catch-all fires, and the handler answers 500
`"Error processing webhook"` with no outbound call. -/
theorem c10_nested_non_object_raises (cfg : Config) (d : Nat)
    (flds : List (String × Json))
    (hact : flds.lookup "action" = some (Json.str "push"))
    (hbad : (∃ v, flds.lookup "repository" = some v ∧ v.isObj = false) ∨
            (∃ v, flds.lookup "target" = some v ∧ v.isObj = false)) :
    docker_webhook cfg (Except.ok (Json.obj flds)) d =
      ⟨500, "Error processing webhook", []⟩ := by
  have ha : pyGet (Json.obj flds) "action" Json.null = Except.ok (Json.str "push") := by
    rw [pyGet_obj, hact]
    rfl
  have hcore : docker_webhook_core cfg (Json.obj flds) d =
      Except.error "AttributeError: .get on a non-dict value" := by
    rcases hbad with ⟨v, hv, hno⟩ | ⟨v, hv, hno⟩
    · have h1 := getField_error_of_nonobj flds "repository" "name" v hv hno
      unfold docker_webhook_core
      simp [ha, h1, jsonEqPyStr]
    · have h3 := getField_error_of_nonobj flds "target" "tag" v hv hno
      rcases hrl : flds.lookup "repository" with _ | x
      · obtain ⟨rn, e1⟩ := getField_ok_of_outerFieldOk flds "repository" "name" (Or.inl hrl)
        obtain ⟨rfn, e2⟩ :=
          getField_ok_of_outerFieldOk flds "repository" "repo_name" (Or.inl hrl)
        unfold docker_webhook_core
        simp [ha, e1, e2, h3, jsonEqPyStr]
      · by_cases hxo : x.isObj = true
        · obtain ⟨g, rfl⟩ := (Json.isObj_iff x).mp hxo
          obtain ⟨rn, e1⟩ :=
            getField_ok_of_outerFieldOk flds "repository" "name" (Or.inr ⟨g, hrl⟩)
          obtain ⟨rfn, e2⟩ :=
            getField_ok_of_outerFieldOk flds "repository" "repo_name" (Or.inr ⟨g, hrl⟩)
          unfold docker_webhook_core
          simp [ha, e1, e2, h3, jsonEqPyStr]
        · have hxo' : x.isObj = false := by rwa [Bool.not_eq_true] at hxo
          have h1 := getField_error_of_nonobj flds "repository" "name" x hrl hxo'
          unfold docker_webhook_core
          simp [ha, h1, jsonEqPyStr]
  exact docker_webhook_of_bind_error cfg (Except.ok (Json.obj flds)) d
    "AttributeError: .get on a non-dict value" (by simp [Except.bind, hcore])

/-- Witness for C10: `repository` present but `null`. -/
theorem c10_witness :
    docker_webhook cfgEx
      (Except.ok (Json.obj [("action", Json.str "push"), ("repository", Json.null)])) 0 =
      ⟨500, "Error processing webhook", []⟩ :=
  c10_nested_non_object_raises cfgEx 0
    [("action", Json.str "push"), ("repository", Json.null)] rfl
    (Or.inl ⟨Json.null, rfl, rfl⟩)

/-- C8: module import fails exactly when the token is unset or empty, or
the comma-split, whitespace-trimmed, empty-discarded watch list is
empty; on success the configuration holds the default-or-given URL, the
token, and that non-empty trimmed watch list. -/
theorem c8_startup_validation (u t w : Option String) :
    (startupFails u t w = true ↔
      (t.getD "" = "" ∨ parseWatchedImages (w.getD "") = [])) ∧
    (startupFails u t w = false →
      startup u t w =
        Except.ok ⟨u.getD "http://localhost:80", t.getD "",
          parseWatchedImages (w.getD "")⟩ ∧
      parseWatchedImages (w.getD "") ≠ []) := by
  by_cases htok : t.getD "" = ""
  · constructor
    · simp [startupFails, startup, htok]
    · intro hf
      simp [startupFails, startup, htok] at hf
  · by_cases hwl : parseWatchedImages (w.getD "") = []
    · constructor
      · simp [startupFails, startup, htok, hwl]
      · intro hf
        simp [startupFails, startup, htok, hwl] at hf
    · have hie : (parseWatchedImages (w.getD "")).isEmpty = false := by
        cases hpw : parseWatchedImages (w.getD "") with
        | nil => exact absurd hpw hwl
        | cons a l => rfl
      constructor
      · simp [startupFails, startup, htok, hwl, hie]
      · intro _
        exact ⟨by simp [startup, htok, hie], hwl⟩

/-- Witness for C8: unset URL, a token, and a padded watch list start
the process with the default URL and the trimmed non-empty list. -/
theorem c8_witness :
    startupFails none (some "tok") (some " a ,, b ") = false ∧
    startup none (some "tok") (some " a ,, b ") =
      Except.ok ⟨"http://localhost:80", "tok", ["a", "b"]⟩ :=
  ⟨rfl, ((c8_startup_validation none (some "tok") (some " a ,, b ")).2 rfl).1⟩
